import Mathlib

/-!
Shallow embedding of the core trading logic of the aster-agent repository:
the risk manager (src/utils/risk-manager.ts), the strategy optimizer's
admission pre-checks (src/agents/agent2-optimizer.ts), the execution
engine's position monitor (src/agents/agent3-executor.ts) and the cycle
orchestrator's logging behaviour (src/orchestrator.ts), together with the
default trading configuration (src/config/index.ts).

JavaScript numbers are modelled as exact rationals (`ℚ`); `Math.floor`,
`Math.round`, `Math.abs` and `Math.min` are modelled by their exact
counterparts on `ℚ`.  JavaScript `Date` values are modelled by a
year/month/day triple; `Date.getDate()` is the `day` field (day of month),
exactly as the source uses it.  Timestamp fields that the source only
prints to the console are omitted.  Asynchronous collaborator calls
(exchange, oracle, wallet) are modelled by passing their outcomes as
explicit arguments.
-/

namespace Aster

/-- Position / strategy direction (the `side` field, `'LONG' | 'SHORT'`). -/
inductive Side
  | LONG
  | SHORT
deriving DecidableEq, Repr

/-- Risk recommendation of `RiskManager.assessRisk`
(`'APPROVE' | 'REJECT' | 'REDUCE_SIZE'`). -/
inductive Recommendation
  | APPROVE
  | REJECT
  | REDUCE_SIZE
deriving DecidableEq, Repr

/-- Stop-loss kind from `StopLossConfig.type` in src/types/index.ts. -/
inductive StopLossType
  | FIXED
  | TRAILING
  | ATR_BASED
deriving DecidableEq, Repr

/-- The fields of `TradingStrategy` (src/types/index.ts) that the core logic
reads.  `stopLossPercentage` / `takeProfitPercentage` are the `percentage`
fields of the nested `stopLoss` / `takeProfit` configs, and `stopLossType`
is `stopLoss.type`. -/
structure TradingStrategy where
  symbol : String
  side : Side
  entryPrice : ℚ
  leverage : ℚ
  positionSize : ℚ
  stopLossType : StopLossType
  stopLossPercentage : ℚ
  takeProfitPercentage : ℚ
  confidence : ℚ
  riskScore : ℚ
deriving DecidableEq, Repr

/-- The fields of `Position` (src/types/index.ts); the `openTime` /
`lastUpdateTime` timestamps, used only for console logging, are omitted. -/
structure Position where
  id : String
  symbol : String
  side : Side
  entryPrice : ℚ
  currentPrice : ℚ
  size : ℚ
  leverage : ℚ
  unrealizedPnL : ℚ
  realizedPnL : ℚ
  stopLoss : ℚ
  takeProfit : ℚ
  isTrailingSL : Bool
deriving DecidableEq, Repr

/-- One entry of the `factors` array built by `assessRisk`. -/
structure RiskFactor where
  name : String
  value : ℚ
  weight : ℚ
deriving DecidableEq, Repr

/-- `RiskAssessment` from src/types/index.ts. -/
structure RiskAssessment where
  score : ℚ
  factors : List RiskFactor
  recommendation : Recommendation
  reasons : List String
deriving DecidableEq, Repr

/-- The trading part of `config` (src/config/index.ts).
`envMaxConcurrentPositions` models `parseInt(process.env.MAX_CONCURRENT_POSITIONS || '4')`,
read directly from the environment inside `assessRisk` (default 4, distinct
from `config.trading.maxConcurrentPositions`, default 3). -/
structure TradingConfig where
  maxConcurrentPositions : ℕ
  positionSizePercent : ℚ
  maxLeverage : ℚ
  maxPositionSize : ℚ
  defaultStopLoss : ℚ
  defaultTakeProfit : ℚ
  maxDailyLoss : ℚ
  allowedSymbols : List String
  envMaxConcurrentPositions : ℕ
deriving DecidableEq, Repr

/-- The default configuration values from src/config/index.ts (no
environment overrides set). -/
def defaultTradingConfig : TradingConfig where
  maxConcurrentPositions := 3
  positionSizePercent := 20
  maxLeverage := 5
  maxPositionSize := 100
  defaultStopLoss := 2
  defaultTakeProfit := 4
  maxDailyLoss := 3
  allowedSymbols := ["BTCUSDT", "ETHUSDT", "BNBUSDT", "SOLUSDT"]
  envMaxConcurrentPositions := 4

/-- A calendar date; models the JavaScript `Date` as far as the risk
manager reads it.  `day` is the day of month, i.e. what `Date.getDate()`
returns. -/
structure SimpleDate where
  year : ℕ
  month : ℕ
  day : ℕ
deriving DecidableEq, Repr

/-- Strict calendar order on dates (`b` is strictly before `a`): used to
state, in the claims, that the wall clock advanced past the stored reset
date.  This is specification vocabulary, not code from the repository. -/
def SimpleDate.laterThan (a b : SimpleDate) : Bool :=
  (b.year < a.year) ||
  (b.year == a.year && b.month < a.month) ||
  (b.year == a.year && b.month == a.month && b.day < a.day)

/-- The mutable state of the `RiskManager` class: `dailyPnL`,
`dailyTrades`, `lastResetDate`. -/
structure RiskManagerState where
  dailyPnL : ℚ
  dailyTrades : ℕ
  lastResetDate : SimpleDate
deriving DecidableEq, Repr

/-- `Math.abs` on exact rationals. -/
def mathAbs (q : ℚ) : ℚ := if q < 0 then -q else q

/-- `RiskManager.resetDailyCounters`: the counters are cleared exactly when
`now.getDate() !== lastResetDate.getDate()`, i.e. when the *day of month*
differs; the full date is not compared. -/
def resetDailyCounters (st : RiskManagerState) (now : SimpleDate) : RiskManagerState :=
  if now.day ≠ st.lastResetDate.day then
    { dailyPnL := 0, dailyTrades := 0, lastResetDate := now }
  else
    st

/-- `RiskManager.isDailyLossLimitExceeded`: runs the lazy rollover check,
then compares `Math.abs(dailyPnL)` against `config.trading.maxDailyLoss`.
Returns the boolean together with the (possibly reset) state. -/
def isDailyLossLimitExceeded (cfg : TradingConfig) (st : RiskManagerState)
    (now : SimpleDate) : Bool × RiskManagerState :=
  let st := resetDailyCounters st now
  (mathAbs st.dailyPnL ≥ cfg.maxDailyLoss, st)

/-- `RiskManager.updateDailyPnL`: lazy rollover check first, then add the
realized P&L percentage to the counter. -/
def updateDailyPnL (st : RiskManagerState) (now : SimpleDate) (pnl : ℚ) :
    RiskManagerState :=
  let st := resetDailyCounters st now
  { st with dailyPnL := st.dailyPnL + pnl }

/-- `RiskManager.getDailyStats`: rollover check, then read the counters. -/
def getDailyStats (st : RiskManagerState) (now : SimpleDate) : ℚ × ℕ :=
  let st := resetDailyCounters st now
  (st.dailyPnL, st.dailyTrades)

/-- One hard override step of `assessRisk`: the repeated source pattern
`if (cond) { recommendation = 'REJECT'; reasons.push(...) }` applied to a
(recommendation, reasons) pair. -/
def applyOverride (c : Prop) [Decidable c] (extra : List String)
    (p : Recommendation × List String) : Recommendation × List String :=
  if c then (Recommendation.REJECT, p.2 ++ extra) else p

/-- `RiskManager.assessRisk` (src/utils/risk-manager.ts): five weighted
factors summed as `Σ value·weight·10`, score thresholds, then the hard
overrides in source order (daily loss, leverage, position size, max
concurrent positions, duplicate symbol).  Returns the assessment together
with the risk-manager state as refreshed by the daily-limit check.
Interpolated numbers in reason strings are rendered with `toString`. -/
def assessRisk (cfg : TradingConfig) (st : RiskManagerState) (now : SimpleDate)
    (strategy : TradingStrategy) (currentPositions : List Position) :
    RiskAssessment × RiskManagerState :=
  let leverageRisk := strategy.leverage / cfg.maxLeverage
  let sizeRisk := strategy.positionSize / cfg.maxPositionSize
  let confidenceRisk := 1 - strategy.confidence / 100
  let marketRisk := strategy.riskScore / 10
  let concentrationRisk := (currentPositions.length : ℚ) / 5
  let factors : List RiskFactor :=
    [⟨"Leverage", leverageRisk, 3/10⟩,
     ⟨"Position Size", sizeRisk, 2/10⟩,
     ⟨"Confidence", confidenceRisk, 15/100⟩,
     ⟨"Market Conditions", marketRisk, 25/100⟩,
     ⟨"Concentration", min concentrationRisk 1, 1/10⟩]
  let totalScore := factors.foldl (fun sum f => sum + f.value * f.weight * 10) (0 : ℚ)
  let base : Recommendation × List String :=
    if totalScore > 8 then
      (Recommendation.REJECT, ["Risk score too high (>8/10)"])
    else if totalScore > 6 then
      (Recommendation.REDUCE_SIZE,
       ["Moderate-high risk detected", "Suggest reducing position size by 50%"])
    else
      (Recommendation.APPROVE, [])
  let daily := isDailyLossLimitExceeded cfg st now
  let afterDaily := applyOverride (daily.1 = true) ["Daily loss limit exceeded"] base
  let afterLeverage := applyOverride (strategy.leverage > cfg.maxLeverage)
    ["Leverage exceeds max (" ++ toString cfg.maxLeverage ++ "x)"] afterDaily
  let afterSize := applyOverride (strategy.positionSize > cfg.maxPositionSize)
    ["Position size exceeds max ($" ++ toString cfg.maxPositionSize ++ ")"] afterLeverage
  let afterMax := applyOverride (currentPositions.length ≥ cfg.envMaxConcurrentPositions)
    ["Maximum concurrent positions reached (" ++ toString cfg.envMaxConcurrentPositions ++ ")"]
    afterSize
  let hasDuplicate := currentPositions.any (fun p => p.symbol == strategy.symbol)
  let final := applyOverride (hasDuplicate = true)
    ["Already have position for " ++ strategy.symbol] afterMax
  let reasons :=
    if final.1 = Recommendation.APPROVE then
      final.2 ++ ["All risk checks passed",
                  "Total risk score: " ++ toString totalScore ++ "/10"]
    else final.2
  ({ score := totalScore, factors := factors,
     recommendation := final.1, reasons := reasons }, daily.2)

/-- `RiskManager.calculateStopLoss`. -/
def calculateStopLoss (entryPrice : ℚ) (side : Side) (percentage : ℚ) : ℚ :=
  match side with
  | Side.LONG => entryPrice * (1 - percentage / 100)
  | Side.SHORT => entryPrice * (1 + percentage / 100)

/-- `RiskManager.calculateTakeProfit`. -/
def calculateTakeProfit (entryPrice : ℚ) (side : Side) (percentage : ℚ) : ℚ :=
  match side with
  | Side.LONG => entryPrice * (1 + percentage / 100)
  | Side.SHORT => entryPrice * (1 - percentage / 100)

/-- `RiskManager.calculateTrailingStopLoss`; the `entryPrice` parameter is
unused in the source as well. -/
def calculateTrailingStopLoss (currentPrice : ℚ) (entryPrice : ℚ) (side : Side)
    (trailingDistance : ℚ) : ℚ :=
  match side with
  | Side.LONG => currentPrice * (1 - trailingDistance / 100)
  | Side.SHORT => currentPrice * (1 + trailingDistance / 100)

/-- `RiskManager.shouldTriggerStopLoss`. -/
def shouldTriggerStopLoss (currentPrice : ℚ) (stopLoss : ℚ) (side : Side) : Bool :=
  match side with
  | Side.LONG => currentPrice ≤ stopLoss
  | Side.SHORT => currentPrice ≥ stopLoss

/-- `RiskManager.shouldTriggerTakeProfit`. -/
def shouldTriggerTakeProfit (currentPrice : ℚ) (takeProfit : ℚ) (side : Side) : Bool :=
  match side with
  | Side.LONG => currentPrice ≥ takeProfit
  | Side.SHORT => currentPrice ≤ takeProfit

/-- `RiskManager.calculatePnL`: leveraged price change as a percentage
(the `size` parameter is not used by the source either). -/
def calculatePnL (entryPrice : ℚ) (currentPrice : ℚ) (size : ℚ) (leverage : ℚ)
    (side : Side) : ℚ :=
  let priceChange :=
    match side with
    | Side.LONG => (currentPrice - entryPrice) / entryPrice
    | Side.SHORT => (entryPrice - currentPrice) / entryPrice
  priceChange * leverage * 100

/-- The three admission pre-checks at the top of `Agent2Optimizer.execute`
(src/agents/agent2-optimizer.ts), performed before `assessRisk` is ever
called: maximum concurrent positions, duplicate symbol, symbol whitelist.
Returns `some rejection` when a pre-check fires (the method returns early
with that hard-coded `RiskAssessment`), `none` when all pass. -/
def agent2PreCheck (cfg : TradingConfig) (initialStrategy : TradingStrategy)
    (currentPositions : List Position) : Option RiskAssessment :=
  if currentPositions.length ≥ cfg.maxConcurrentPositions then
    some { score := 10, factors := [], recommendation := Recommendation.REJECT,
           reasons := ["Maximum concurrent positions (" ++
                       toString cfg.maxConcurrentPositions ++ ") already open"] }
  else if (currentPositions.find? (fun p => p.symbol == initialStrategy.symbol)).isSome then
    some { score := 10, factors := [], recommendation := Recommendation.REJECT,
           reasons := ["Already have open position for " ++ initialStrategy.symbol] }
  else if ¬ cfg.allowedSymbols.contains initialStrategy.symbol then
    some { score := 10, factors := [], recommendation := Recommendation.REJECT,
           reasons := ["Symbol " ++ initialStrategy.symbol ++
                       " not allowed. Only trade: " ++
                       String.intercalate (", ") cfg.allowedSymbols] }
  else
    none

/-- Reason tag passed by `Agent3Executor.onPriceUpdate` to `closePosition`. -/
inductive CloseReason
  | STOP_LOSS
  | TAKE_PROFIT
deriving DecidableEq, Repr

/-- `Agent3Executor.onPriceUpdate` (src/agents/agent3-executor.ts), acting
on the monitored position for one price tick: update current price and
unrealized P&L, check the stop first (close with `STOP_LOSS` and return),
then the take profit (close with `TAKE_PROFIT` and return), then — for a
trailing stop with unrealized P&L above 5 — recompute the trailing stop at
3% distance and replace the stored stop only if strictly tighter.  Returns
the updated position and the close reason, if a close was initiated. -/
def onPriceUpdate (position : Position) (currentPrice : ℚ) :
    Position × Option CloseReason :=
  let updated := { position with
    currentPrice := currentPrice,
    unrealizedPnL := calculatePnL position.entryPrice currentPrice
      position.size position.leverage position.side }
  if shouldTriggerStopLoss currentPrice updated.stopLoss updated.side then
    (updated, some CloseReason.STOP_LOSS)
  else if shouldTriggerTakeProfit currentPrice updated.takeProfit updated.side then
    (updated, some CloseReason.TAKE_PROFIT)
  else if updated.isTrailingSL && decide (updated.unrealizedPnL > 5) then
    let newStopLoss := calculateTrailingStopLoss currentPrice updated.entryPrice
      updated.side 3
    if updated.side = Side.LONG ∧ newStopLoss > updated.stopLoss then
      ({ updated with stopLoss := newStopLoss }, none)
    else if updated.side = Side.SHORT ∧ newStopLoss < updated.stopLoss then
      ({ updated with stopLoss := newStopLoss }, none)
    else
      (updated, none)
  else
    (updated, none)

/-- A sequence of price ticks fed to `onPriceUpdate`; once a close is
initiated the position is removed from `activePositions`, so later ticks
find no position and return immediately. -/
def processTicks (position : Position) : List ℚ → Position × Option CloseReason
  | [] => (position, none)
  | price :: rest =>
    match onPriceUpdate position price with
    | (updated, none) => processTicks updated rest
    | (updated, some r) => (updated, some r)

/-- The monitoring state of `Agent3Executor` that `checkPositionStatus` and
`stopMonitoring` touch: the `activeMonitoring` map of interval timers, the
set of WebSocket price subscriptions, and the `activePositions` map. -/
structure ExecutorState where
  activeMonitoring : List String
  subscriptions : List String
  activePositions : List (String × Position)
deriving DecidableEq, Repr

/-- `Agent3Executor.stopMonitoring`: clear and remove the interval timer,
unsubscribe from price updates.  `activePositions` is not touched. -/
def stopMonitoring (st : ExecutorState) (symbol : String) : ExecutorState :=
  { st with
    activeMonitoring := st.activeMonitoring.filter (fun s => s != symbol),
    subscriptions := st.subscriptions.filter (fun s => s != symbol) }

/-- `Agent3Executor.getActivePositions`. -/
def getActivePositions (st : ExecutorState) : List Position :=
  st.activePositions.map (fun q => q.2)

/-- `Agent3Executor.checkPositionStatus`, the periodic reconciliation pass:
read the exchange's position list; when the monitored symbol is absent,
stop monitoring it.  The boolean records whether a close order was issued
(this path never issues one). -/
def checkPositionStatus (st : ExecutorState) (symbol : String)
    (exchangePositions : List Position) : ExecutorState × Bool :=
  if (exchangePositions.find? (fun p => p.symbol == symbol)).isSome then
    (st, false)
  else
    (stopMonitoring st symbol, false)

/-- `Math.floor` on exact rationals (`Rat.floor` is the largest integer
less than or equal to the argument). -/
def jsFloor (q : ℚ) : ℚ := (q.floor : ℤ)

/-- JavaScript `Math.round` (round half toward positive infinity) on exact
rationals. -/
def jsRound (q : ℚ) : ℚ := ((q + 1/2).floor : ℤ)

/-- `Agent3Executor.calculateQuantity`: quantity = positionSize/entryPrice,
rounded down to the 0.001 step size, bumped up to the 0.001 minimum
quantity, then rounded to 3 decimal places.  The source uses the same
precision, step and minimum for every symbol. -/
def calculateQuantity (strategy : TradingStrategy) : ℚ :=
  let notionalValue := strategy.positionSize
  let rawQuantity := notionalValue / strategy.entryPrice
  let stepSize : ℚ := 1/1000
  let minQuantity : ℚ := 1/1000
  let roundedQuantity := jsFloor (rawQuantity / stepSize) * stepSize
  let roundedQuantity := if roundedQuantity < minQuantity then minQuantity else roundedQuantity
  let finalQuantity := jsRound (roundedQuantity * 1000) / 1000
  finalQuantity

/-- Status of a conversation-log entry (`AgentStatus`, as the orchestrator
uses it: `success` or `error`). -/
inductive StageStatus
  | success
  | error
deriving DecidableEq, Repr

/-- An `AgentMessage` appended by `AgentOrchestrator.logConversation`
(timestamp and payload omitted; `agent` is the stage identifier). -/
structure CycleLogEntry where
  agent : String
  status : StageStatus
  errorMessage : Option String
deriving DecidableEq, Repr

/-- `AgentOrchestrator.runCycle` (src/orchestrator.ts), modelled by the
conversation-log entries it appends.  The arguments are the outcomes of the
awaited collaborator calls: `stage1` is `agent1.execute` (the oracle call),
`stage2` is the wallet lookup plus `agent2.execute` returning the risk
recommendation, `stage3` is `agent3.execute`.  An `Except.error` value
means the corresponding call threw.  The whole body sits in a `try` whose
`catch` only writes to the console, so `runCycle` itself never throws and
returns exactly the entries appended before any uncaught error: a stage-1
or stage-2 failure reaches the outer catch, while a stage-3 failure is
caught by the inner `try` and logged as an `error` entry. -/
def runCycle (stage1 : Except String Unit)
    (stage2 : Except String Recommendation)
    (manualApprovalRequired : Bool)
    (stage3 : Except String Unit) : List CycleLogEntry :=
  match stage1 with
  | Except.error _ => []
  | Except.ok _ =>
    let log1 : List CycleLogEntry := [⟨"agent1", StageStatus.success, none⟩]
    match stage2 with
    | Except.error _ => log1
    | Except.ok recommendation =>
      let log2 := log1 ++ [⟨"agent2", StageStatus.success, none⟩]
      if recommendation = Recommendation.REJECT then log2
      else if manualApprovalRequired then log2
      else
        match stage3 with
        | Except.ok _ => log2 ++ [⟨"agent3", StageStatus.success, none⟩]
        | Except.error e => log2 ++ [⟨"agent3", StageStatus.error, some e⟩]

/-! Concrete sample inputs used by the closed counterexamples and
witnesses below. -/

/-- A sample calendar date. -/
def sampleDate : SimpleDate := ⟨2025, 1, 15⟩

/-- A fresh risk-manager state whose counters are zero and whose stored
reset date is `sampleDate`. -/
def freshRiskState : RiskManagerState := ⟨0, 0, sampleDate⟩

/-- A low-risk candidate for a symbol that is not in the default
allow-list (`XRPUSDT`). -/
def xrpStrategy : TradingStrategy :=
  { symbol := "XRPUSDT", side := Side.LONG, entryPrice := 2, leverage := 1,
    positionSize := 10, stopLossType := StopLossType.FIXED,
    stopLossPercentage := 2, takeProfitPercentage := 4,
    confidence := 100, riskScore := 0 }

/-- The same candidate with leverage 10, above the default ceiling of 5. -/
def hiLevStrategy : TradingStrategy :=
  { xrpStrategy with leverage := 10 }

/-- A moderate candidate for `BTCUSDT` (weighted score 3.25 under the
default configuration). -/
def btcStrategy : TradingStrategy :=
  { symbol := "BTCUSDT", side := Side.LONG, entryPrice := 100, leverage := 2,
    positionSize := 50, stopLossType := StopLossType.TRAILING,
    stopLossPercentage := 2, takeProfitPercentage := 4,
    confidence := 80, riskScore := 3 }

/-- A tiny candidate: position size 10 at entry price 50000, so the raw
quantity 0.0002 is below the 0.001 minimum. -/
def dustStrategy : TradingStrategy :=
  { symbol := "BTCUSDT", side := Side.LONG, entryPrice := 50000, leverage := 2,
    positionSize := 10, stopLossType := StopLossType.FIXED,
    stopLossPercentage := 2, takeProfitPercentage := 4,
    confidence := 80, riskScore := 3 }

/-- A monitored long position with a trailing stop. -/
def btcPosition : Position :=
  { id := "pos_1", symbol := "BTCUSDT", side := Side.LONG, entryPrice := 100,
    currentPrice := 100, size := 50, leverage := 2, unrealizedPnL := 0,
    realizedPnL := 0, stopLoss := 98, takeProfit := 104, isTrailingSL := true }

/-- A long position whose stored stop (100) lies above its take-profit
(90), so a tick at 95 satisfies both trigger conditions at once. -/
def gappedPosition : Position :=
  { id := "pos_2", symbol := "BTCUSDT", side := Side.LONG, entryPrice := 100,
    currentPrice := 100, size := 50, leverage := 2, unrealizedPnL := 0,
    realizedPnL := 0, stopLoss := 100, takeProfit := 90, isTrailingSL := false }

/-- Executor state with one monitored `BTCUSDT` position, its interval
timer and its price subscription. -/
def execStateBTC : ExecutorState :=
  { activeMonitoring := ["BTCUSDT"], subscriptions := ["BTCUSDT"],
    activePositions := [("BTCUSDT", btcPosition)] }

/-! Helper lemmas about the override chain of `assessRisk`. -/

/-- An override step never turns a rejection back into anything weaker. -/
theorem applyOverride_rejects (c : Prop) [Decidable c] (extra : List String)
    (p : Recommendation × List String) (h : p.1 = Recommendation.REJECT) :
    (applyOverride c extra p).1 = Recommendation.REJECT := by
  unfold applyOverride
  split <;> simp [h]

/-- An override step whose condition holds rejects and appends its reason. -/
theorem applyOverride_pos (c : Prop) [Decidable c] (extra : List String)
    (p : Recommendation × List String) (h : c) :
    applyOverride c extra p = (Recommendation.REJECT, p.2 ++ extra) := by
  unfold applyOverride
  exact if_pos h

/-- An override step whose condition fails changes nothing. -/
theorem applyOverride_neg (c : Prop) [Decidable c] (extra : List String)
    (p : Recommendation × List String) (h : ¬c) :
    applyOverride c extra p = p := by
  unfold applyOverride
  exact if_neg h

/-- An override step keeps every reason already recorded. -/
theorem applyOverride_keeps (c : Prop) [Decidable c] (extra : List String)
    (p : Recommendation × List String) (s : String) (h : s ∈ p.2) :
    s ∈ (applyOverride c extra p).2 := by
  unfold applyOverride
  split
  · simpa using Or.inl h
  · exact h

/-- The final reasons list of `assessRisk` keeps every recorded reason,
whether or not the approval tail is appended. -/
theorem mem_finalReasons (p : Recommendation × List String) (tail : List String)
    (s : String) (h : s ∈ p.2) :
    s ∈ (if p.1 = Recommendation.APPROVE then p.2 ++ tail else p.2) := by
  split
  · exact List.mem_append_left _ h
  · exact h

/-- Any of the five hard-override conditions of `assessRisk` forces the
final recommendation to `REJECT`, whatever the score-based outcome was. -/
theorem assessRisk_override_forces_reject (cfg : TradingConfig)
    (st : RiskManagerState) (now : SimpleDate) (strategy : TradingStrategy)
    (currentPositions : List Position)
    (h : (isDailyLossLimitExceeded cfg st now).1 = true ∨
         strategy.leverage > cfg.maxLeverage ∨
         strategy.positionSize > cfg.maxPositionSize ∨
         currentPositions.length ≥ cfg.envMaxConcurrentPositions ∨
         (currentPositions.any fun p => p.symbol == strategy.symbol) = true) :
    (assessRisk cfg st now strategy currentPositions).1.recommendation
      = Recommendation.REJECT := by
  unfold assessRisk
  rcases h with h | h | h | h | h
  · simp only
    apply applyOverride_rejects
    apply applyOverride_rejects
    apply applyOverride_rejects
    apply applyOverride_rejects
    rw [applyOverride_pos _ _ _ h]
  · simp only
    apply applyOverride_rejects
    apply applyOverride_rejects
    apply applyOverride_rejects
    rw [applyOverride_pos _ _ _ h]
  · simp only
    apply applyOverride_rejects
    apply applyOverride_rejects
    rw [applyOverride_pos _ _ _ h]
  · simp only
    apply applyOverride_rejects
    rw [applyOverride_pos _ _ _ h]
  · simp only
    rw [applyOverride_pos _ _ _ h]

/-- The score of `assessRisk` is the explicit five-term weighted sum. -/
theorem assessRisk_score_formula (cfg : TradingConfig) (st : RiskManagerState)
    (now : SimpleDate) (strategy : TradingStrategy)
    (currentPositions : List Position) :
    (assessRisk cfg st now strategy currentPositions).1.score =
      (strategy.leverage / cfg.maxLeverage) * (30/100) * 10
      + (strategy.positionSize / cfg.maxPositionSize) * (20/100) * 10
      + (1 - strategy.confidence / 100) * (15/100) * 10
      + (strategy.riskScore / 10) * (25/100) * 10
      + min ((currentPositions.length : ℚ) / 5) 1 * (10/100) * 10 := by
  unfold assessRisk
  simp [List.foldl]
  ring

/-- When no hard-override condition holds, the recommendation of
`assessRisk` is characterised exactly by the score thresholds. -/
theorem assessRisk_thresholds (cfg : TradingConfig) (st : RiskManagerState)
    (now : SimpleDate) (strategy : TradingStrategy)
    (currentPositions : List Position)
    (h1 : (isDailyLossLimitExceeded cfg st now).1 = false)
    (h2 : ¬ strategy.leverage > cfg.maxLeverage)
    (h3 : ¬ strategy.positionSize > cfg.maxPositionSize)
    (h4 : ¬ currentPositions.length ≥ cfg.envMaxConcurrentPositions)
    (h5 : (currentPositions.any fun p => p.symbol == strategy.symbol) = false) :
    ((assessRisk cfg st now strategy currentPositions).1.recommendation = Recommendation.REJECT
       ↔ (assessRisk cfg st now strategy currentPositions).1.score > 8) ∧
    ((assessRisk cfg st now strategy currentPositions).1.recommendation = Recommendation.REDUCE_SIZE
       ↔ (6 < (assessRisk cfg st now strategy currentPositions).1.score ∧
          (assessRisk cfg st now strategy currentPositions).1.score ≤ 8)) ∧
    ((assessRisk cfg st now strategy currentPositions).1.recommendation = Recommendation.APPROVE
       ↔ (assessRisk cfg st now strategy currentPositions).1.score ≤ 6) := by
  unfold assessRisk
  simp only
  rw [applyOverride_neg _ _ _ (by simp [h5]),
      applyOverride_neg _ _ _ h4,
      applyOverride_neg _ _ _ h3,
      applyOverride_neg _ _ _ h2,
      applyOverride_neg _ _ _ (by simp [h1])]
  split_ifs with hgt hmid
  · exact ⟨iff_of_true rfl hgt,
      iff_of_false (by decide) (by rintro ⟨h6, h8⟩; linarith),
      iff_of_false (by decide) (by intro h; linarith)⟩
  · push_neg at hgt
    exact ⟨iff_of_false (by decide) (by intro h; linarith),
      iff_of_true rfl ⟨hmid, hgt⟩,
      iff_of_false (by decide) (by intro h; linarith)⟩
  · push_neg at hgt hmid
    exact ⟨iff_of_false (by decide) (by intro h; linarith),
      iff_of_false (by decide) (by rintro ⟨h6, h8⟩; linarith),
      iff_of_true rfl hmid⟩

/-- Two same-day P&L updates of −1.5 each trip the daily limit of 3. -/
theorem dailyLoss_accumulates (cfg : TradingConfig) (st0 : RiskManagerState)
    (d : SimpleDate) (hlimit : cfg.maxDailyLoss = 3) (h0 : st0.dailyPnL = 0)
    (hd : st0.lastResetDate.day = d.day) :
    (isDailyLossLimitExceeded cfg
        (updateDailyPnL (updateDailyPnL st0 d (-(3/2))) d (-(3/2))) d).1 = true := by
  unfold isDailyLossLimitExceeded updateDailyPnL resetDailyCounters mathAbs
  simp [hd, h0, hlimit]

/-- While the daily-loss override fires, `assessRisk` rejects every
candidate and records the daily-loss reason. -/
theorem dailyLoss_reject (cfg : TradingConfig) (st : RiskManagerState)
    (now : SimpleDate) (strategy : TradingStrategy)
    (currentPositions : List Position)
    (h : (isDailyLossLimitExceeded cfg st now).1 = true) :
    (assessRisk cfg st now strategy currentPositions).1.recommendation
        = Recommendation.REJECT ∧
    "Daily loss limit exceeded" ∈
      (assessRisk cfg st now strategy currentPositions).1.reasons := by
  unfold assessRisk
  simp only
  constructor
  · apply applyOverride_rejects
    apply applyOverride_rejects
    apply applyOverride_rejects
    apply applyOverride_rejects
    rw [applyOverride_pos _ _ _ h]
  · apply mem_finalReasons
    apply applyOverride_keeps
    apply applyOverride_keeps
    apply applyOverride_keeps
    apply applyOverride_keeps
    rw [applyOverride_pos _ _ _ h]
    simp

/-- `isDailyLossLimitExceeded` holds exactly when the absolute cumulative
daily P&L (after the lazy rollover check) reaches the configured limit. -/
theorem isDailyLossLimitExceeded_iff (cfg : TradingConfig)
    (st : RiskManagerState) (now : SimpleDate) :
    (isDailyLossLimitExceeded cfg st now).1 = true ↔
      mathAbs (resetDailyCounters st now).dailyPnL ≥ cfg.maxDailyLoss := by
  unfold isDailyLossLimitExceeded
  simp

/-! Helper lemmas about the position monitor. -/

/-- A price tick never changes the side of the monitored position. -/
theorem onPriceUpdate_side (position : Position) (price : ℚ) :
    ((onPriceUpdate position price).1).side = position.side := by
  unfold onPriceUpdate
  dsimp only
  split
  · rfl
  · split
    · rfl
    · split
      · split
        · rfl
        · split
          · rfl
          · rfl
      · rfl

/-- One tick never lowers the stored stop of a long position. -/
theorem onPriceUpdate_stopLoss_le (position : Position) (price : ℚ)
    (hside : position.side = Side.LONG) :
    position.stopLoss ≤ ((onPriceUpdate position price).1).stopLoss := by
  unfold onPriceUpdate
  dsimp only
  split
  · exact le_refl _
  · split
    · exact le_refl _
    · split
      · split
        · next h => exact le_of_lt h.2
        · split
          · next h =>
            rw [hside] at h
            exact absurd h.1 (by decide)
          · exact le_refl _
      · exact le_refl _

/-- One tick never raises the stored stop of a short position. -/
theorem onPriceUpdate_stopLoss_ge (position : Position) (price : ℚ)
    (hside : position.side = Side.SHORT) :
    ((onPriceUpdate position price).1).stopLoss ≤ position.stopLoss := by
  unfold onPriceUpdate
  dsimp only
  split
  · exact le_refl _
  · split
    · exact le_refl _
    · split
      · split
        · next h =>
          rw [hside] at h
          exact absurd h.1 (by decide)
        · split
          · next h => exact le_of_lt h.2
          · exact le_refl _
      · exact le_refl _

/-- If a tick changes the stored stop at all, then the trailing flag was
set, the freshly computed unrealized P&L exceeded 5, and the replacement
was strictly tighter in the position's favour. -/
theorem onPriceUpdate_stopLoss_change (position : Position) (price : ℚ)
    (h : ((onPriceUpdate position price).1).stopLoss ≠ position.stopLoss) :
    position.isTrailingSL = true ∧
    calculatePnL position.entryPrice price position.size position.leverage
      position.side > 5 ∧
    (position.side = Side.LONG →
      ((onPriceUpdate position price).1).stopLoss > position.stopLoss) ∧
    (position.side = Side.SHORT →
      ((onPriceUpdate position price).1).stopLoss < position.stopLoss) := by
  revert h
  unfold onPriceUpdate
  dsimp only
  split
  · intro h
    exact absurd rfl h
  · split
    · intro h
      exact absurd rfl h
    · split
      · next htrail =>
        simp only [Bool.and_eq_true, decide_eq_true_eq] at htrail
        split
        · next hlong =>
          intro _
          refine ⟨htrail.1, htrail.2, fun _ => hlong.2, fun hshort => ?_⟩
          rw [hlong.1] at hshort
          exact absurd hshort (by decide)
        · split
          · next hshort =>
            intro _
            refine ⟨htrail.1, htrail.2, fun hlong => ?_, fun _ => hshort.2⟩
            rw [hshort.1] at hlong
            exact absurd hlong (by decide)
          · intro h
            exact absurd rfl h
      · intro h
        exact absurd rfl h

/-- Across any tick sequence the stored stop of a long position is
monotonically non-decreasing. -/
theorem processTicks_stopLoss_le (position : Position) (prices : List ℚ)
    (hside : position.side = Side.LONG) :
    position.stopLoss ≤ ((processTicks position prices).1).stopLoss := by
  induction prices generalizing position with
  | nil => exact le_refl _
  | cons p rest ih =>
    unfold processTicks
    have hle := onPriceUpdate_stopLoss_le position p hside
    have hs := onPriceUpdate_side position p
    cases hu : onPriceUpdate position p with
    | mk updated reason =>
      rw [hu] at hle hs
      cases reason with
      | none =>
        simp only
        exact le_trans hle (ih updated (hs.trans hside))
      | some r =>
        simp only
        exact hle

/-- Across any tick sequence the stored stop of a short position is
monotonically non-increasing. -/
theorem processTicks_stopLoss_ge (position : Position) (prices : List ℚ)
    (hside : position.side = Side.SHORT) :
    ((processTicks position prices).1).stopLoss ≤ position.stopLoss := by
  induction prices generalizing position with
  | nil => exact le_refl _
  | cons p rest ih =>
    unfold processTicks
    have hle := onPriceUpdate_stopLoss_ge position p hside
    have hs := onPriceUpdate_side position p
    cases hu : onPriceUpdate position p with
    | mk updated reason =>
      rw [hu] at hle hs
      cases reason with
      | none =>
        simp only
        exact le_trans (ih updated (hs.trans hside)) hle
      | some r =>
        simp only
        exact hle

/-! Helper lemmas about rounding. -/

/-- `Rat.floor` agrees with the ambient `Int.floor`. -/
theorem ratFloor_eq_intFloor (q : ℚ) : q.floor = ⌊q⌋ := by
  rw [Rat.floor_def', Rat.floor_def]

/-- `jsFloor` is the cast integer floor. -/
theorem jsFloor_eq (q : ℚ) : jsFloor q = ((⌊q⌋ : ℤ) : ℚ) := by
  unfold jsFloor
  rw [ratFloor_eq_intFloor]

/-- `Math.round` is the identity on integers. -/
theorem jsRound_intCast (n : ℤ) : jsRound ((n : ℚ)) = ((n : ℤ) : ℚ) := by
  unfold jsRound
  rw [ratFloor_eq_intFloor, Int.floor_int_add]
  have h12 : ⌊(1 / 2 : ℚ)⌋ = 0 := by
    rw [Int.floor_eq_zero_iff]
    constructor <;> norm_num
  rw [h12]
  norm_num

/-! The claim theorems. -/

/-- Claim C1, counterexample: `assessRisk` itself performs no allow-list
check.  The concrete candidate `xrpStrategy` has a symbol outside the
default allow-list, yet `assessRisk` returns `APPROVE` for it (with no
open positions and fresh daily counters), contradicting the claim that
such a candidate is rejected by `assessRisk` with an allow-list reason. -/
theorem assessRisk_ignores_allowlist_counterexample :
    defaultTradingConfig.allowedSymbols.contains xrpStrategy.symbol = false ∧
    (assessRisk defaultTradingConfig freshRiskState sampleDate xrpStrategy []).1.recommendation
      = Recommendation.APPROVE := by
  constructor
  · simp [defaultTradingConfig, xrpStrategy]
  · simp [assessRisk, applyOverride, isDailyLossLimitExceeded, resetDailyCounters,
          mathAbs, defaultTradingConfig, freshRiskState, xrpStrategy, sampleDate]
    norm_num

/-- Claim C1, amended: the allow-list rejection (with its specific reason
string) is produced by the optimizer's pre-checks in
`Agent2Optimizer.execute`, before `assessRisk` is called, for every
candidate whose symbol is not allow-listed and that passes the earlier
max-positions and duplicate pre-checks; and inside `assessRisk` each of
its five hard overrides (daily loss, leverage, notional, max concurrent
positions, duplicate symbol) forces `REJECT`, never loosening the
score-based outcome. -/
theorem claim1_allowlist_in_optimizer_overrides_tighten :
    (∀ (cfg : TradingConfig) (strategy : TradingStrategy)
       (currentPositions : List Position),
       ¬ currentPositions.length ≥ cfg.maxConcurrentPositions →
       (currentPositions.find? (fun p => p.symbol == strategy.symbol)).isSome = false →
       cfg.allowedSymbols.contains strategy.symbol = false →
       agent2PreCheck cfg strategy currentPositions =
         some { score := 10, factors := [],
                recommendation := Recommendation.REJECT,
                reasons := ["Symbol " ++ strategy.symbol ++ " not allowed. Only trade: "
                            ++ String.intercalate (", ") cfg.allowedSymbols] }) ∧
    (∀ (cfg : TradingConfig) (st : RiskManagerState) (now : SimpleDate)
       (strategy : TradingStrategy) (currentPositions : List Position),
       ((isDailyLossLimitExceeded cfg st now).1 = true ∨
        strategy.leverage > cfg.maxLeverage ∨
        strategy.positionSize > cfg.maxPositionSize ∨
        currentPositions.length ≥ cfg.envMaxConcurrentPositions ∨
        (currentPositions.any fun p => p.symbol == strategy.symbol) = true) →
       (assessRisk cfg st now strategy currentPositions).1.recommendation
         = Recommendation.REJECT) := by
  constructor
  · intro cfg strategy currentPositions h1 h2 h3
    unfold agent2PreCheck
    rw [if_neg h1, if_neg (by simp [h2]), if_pos (by simpa using h3)]
  · intro cfg st now strategy currentPositions h
    exact assessRisk_override_forces_reject cfg st now strategy currentPositions h

/-- Claim C1, witness: the amended theorem applied to concrete inputs —
the optimizer pre-check rejects `xrpStrategy` for its symbol, and the
leverage override forces `assessRisk` to reject `hiLevStrategy`. -/
theorem claim1_allowlist_witness :
    agent2PreCheck defaultTradingConfig xrpStrategy [] =
      some { score := 10, factors := [],
             recommendation := Recommendation.REJECT,
             reasons := ["Symbol " ++ xrpStrategy.symbol ++ " not allowed. Only trade: "
                         ++ String.intercalate (", ") defaultTradingConfig.allowedSymbols] } ∧
    (assessRisk defaultTradingConfig freshRiskState sampleDate hiLevStrategy []).1.recommendation
      = Recommendation.REJECT := by
  have h := claim1_allowlist_in_optimizer_overrides_tighten
  refine ⟨h.1 defaultTradingConfig xrpStrategy [] (by simp [defaultTradingConfig]) rfl
      (by simp [defaultTradingConfig, xrpStrategy]), ?_⟩
  refine h.2 defaultTradingConfig freshRiskState sampleDate hiLevStrategy []
    (Or.inr (Or.inl ?_))
  norm_num [hiLevStrategy, xrpStrategy, defaultTradingConfig]

/-- Claim C2: the score of `assessRisk` is the sum over exactly five
factors of value·weight·10 with weights 0.30, 0.20, 0.15, 0.25, 0.10 (the
last factor capped at 1.0), and when no hard-override condition holds the
recommendation is `REJECT` iff score > 8, `REDUCE_SIZE` iff
6 < score ≤ 8, and `APPROVE` otherwise. -/
theorem claim2_score_formula_and_thresholds (cfg : TradingConfig)
    (st : RiskManagerState) (now : SimpleDate) (strategy : TradingStrategy)
    (currentPositions : List Position) :
    ((assessRisk cfg st now strategy currentPositions).1.factors.length = 5) ∧
    ((assessRisk cfg st now strategy currentPositions).1.score =
      (strategy.leverage / cfg.maxLeverage) * (30/100) * 10
      + (strategy.positionSize / cfg.maxPositionSize) * (20/100) * 10
      + (1 - strategy.confidence / 100) * (15/100) * 10
      + (strategy.riskScore / 10) * (25/100) * 10
      + min ((currentPositions.length : ℚ) / 5) 1 * (10/100) * 10) ∧
    ((isDailyLossLimitExceeded cfg st now).1 = false →
     ¬ strategy.leverage > cfg.maxLeverage →
     ¬ strategy.positionSize > cfg.maxPositionSize →
     ¬ currentPositions.length ≥ cfg.envMaxConcurrentPositions →
     (currentPositions.any fun p => p.symbol == strategy.symbol) = false →
     ((assessRisk cfg st now strategy currentPositions).1.recommendation
         = Recommendation.REJECT
        ↔ (assessRisk cfg st now strategy currentPositions).1.score > 8) ∧
     ((assessRisk cfg st now strategy currentPositions).1.recommendation
         = Recommendation.REDUCE_SIZE
        ↔ (6 < (assessRisk cfg st now strategy currentPositions).1.score ∧
           (assessRisk cfg st now strategy currentPositions).1.score ≤ 8)) ∧
     ((assessRisk cfg st now strategy currentPositions).1.recommendation
         = Recommendation.APPROVE
        ↔ (assessRisk cfg st now strategy currentPositions).1.score ≤ 6)) := by
  refine ⟨?_, assessRisk_score_formula cfg st now strategy currentPositions,
    fun h1 h2 h3 h4 h5 =>
      assessRisk_thresholds cfg st now strategy currentPositions h1 h2 h3 h4 h5⟩
  unfold assessRisk
  simp

/-- Claim C2, witness: the theorem applied at a concrete candidate whose
score is 3.25, giving `APPROVE`. -/
theorem claim2_witness :
    (assessRisk defaultTradingConfig freshRiskState sampleDate btcStrategy []).1.recommendation
      = Recommendation.APPROVE := by
  have h := claim2_score_formula_and_thresholds defaultTradingConfig
    freshRiskState sampleDate btcStrategy []
  have hdaily : (isDailyLossLimitExceeded defaultTradingConfig freshRiskState sampleDate).1
      = false := by
    simp [isDailyLossLimitExceeded, resetDailyCounters, mathAbs, freshRiskState,
          sampleDate, defaultTradingConfig]
  have hiff := (h.2.2 hdaily
    (by norm_num [btcStrategy, defaultTradingConfig])
    (by norm_num [btcStrategy, defaultTradingConfig])
    (by simp [defaultTradingConfig])
    (by simp)).2.2
  apply hiff.mpr
  rw [h.2.1]
  norm_num [btcStrategy, defaultTradingConfig]

/-- Claim C3 (code bug): `resetDailyCounters` compares only the day of
month (`getDate()`), so an access whose wall-clock date is a full month
later than the stored reset date — 2025-02-15 after 2025-01-15 — leaves
the counters untouched, although the date has advanced; the very next
calendar day (2025-01-16) does reset them. -/
theorem claim3_daily_reset_day_of_month_bug :
    SimpleDate.laterThan ⟨2025, 2, 15⟩ ⟨2025, 1, 15⟩ = true ∧
    resetDailyCounters ⟨-2, 3, ⟨2025, 1, 15⟩⟩ ⟨2025, 2, 15⟩ =
      ⟨-2, 3, ⟨2025, 1, 15⟩⟩ ∧
    resetDailyCounters ⟨-2, 3, ⟨2025, 1, 15⟩⟩ ⟨2025, 1, 16⟩ =
      ⟨0, 0, ⟨2025, 1, 16⟩⟩ := by
  refine ⟨rfl, ?_, ?_⟩ <;> simp [resetDailyCounters]

/-- Claim C4: with the daily loss limit configured at 3, two same-day
updates of −1.5 make `isDailyLossLimitExceeded` true (it holds exactly
when the absolute cumulative daily P&L reaches the limit), and every
subsequent same-day `assessRisk` call rejects any candidate with the
daily-loss reason, regardless of its score. -/
theorem claim4_daily_loss_limit (cfg : TradingConfig)
    (st0 : RiskManagerState) (d : SimpleDate) (hlimit : cfg.maxDailyLoss = 3)
    (h0 : st0.dailyPnL = 0) (hd : st0.lastResetDate.day = d.day) :
    (isDailyLossLimitExceeded cfg
        (updateDailyPnL (updateDailyPnL st0 d (-(3/2))) d (-(3/2))) d).1 = true ∧
    (∀ (strategy : TradingStrategy) (currentPositions : List Position),
       (assessRisk cfg
           (updateDailyPnL (updateDailyPnL st0 d (-(3/2))) d (-(3/2))) d
           strategy currentPositions).1.recommendation = Recommendation.REJECT ∧
       "Daily loss limit exceeded" ∈
         (assessRisk cfg
             (updateDailyPnL (updateDailyPnL st0 d (-(3/2))) d (-(3/2))) d
             strategy currentPositions).1.reasons) ∧
    (∀ st : RiskManagerState,
       (isDailyLossLimitExceeded cfg st d).1 = true ↔
         mathAbs (resetDailyCounters st d).dailyPnL ≥ cfg.maxDailyLoss) := by
  have hexc := dailyLoss_accumulates cfg st0 d hlimit h0 hd
  exact ⟨hexc,
    fun strategy currentPositions =>
      dailyLoss_reject cfg _ d strategy currentPositions hexc,
    fun st => isDailyLossLimitExceeded_iff cfg st d⟩

/-- Claim C4, witness: the theorem at the default configuration, a fresh
state and the concrete candidate `btcStrategy`. -/
theorem claim4_witness :
    (isDailyLossLimitExceeded defaultTradingConfig
        (updateDailyPnL (updateDailyPnL freshRiskState sampleDate (-(3/2)))
          sampleDate (-(3/2))) sampleDate).1 = true ∧
    (assessRisk defaultTradingConfig
        (updateDailyPnL (updateDailyPnL freshRiskState sampleDate (-(3/2)))
          sampleDate (-(3/2))) sampleDate btcStrategy []).1.recommendation
      = Recommendation.REJECT ∧
    "Daily loss limit exceeded" ∈
      (assessRisk defaultTradingConfig
          (updateDailyPnL (updateDailyPnL freshRiskState sampleDate (-(3/2)))
            sampleDate (-(3/2))) sampleDate btcStrategy []).1.reasons := by
  have h := claim4_daily_loss_limit defaultTradingConfig freshRiskState
    sampleDate rfl rfl rfl
  exact ⟨h.1, (h.2.1 btcStrategy []).1, (h.2.1 btcStrategy []).2⟩

/-- Claim C5: for a long position the stored stop is monotonically
non-decreasing across any tick sequence (non-increasing for a short), and
a single tick changes the stored stop only when the position is trailing,
the freshly computed unrealized P&L exceeds the +5 activation threshold,
and the new stop is strictly higher for a long (strictly lower for a
short). -/
theorem claim5_trailing_stop_never_loosens (position : Position)
    (prices : List ℚ) :
    (position.side = Side.LONG →
      position.stopLoss ≤ ((processTicks position prices).1).stopLoss) ∧
    (position.side = Side.SHORT →
      ((processTicks position prices).1).stopLoss ≤ position.stopLoss) ∧
    (∀ price : ℚ,
      ((onPriceUpdate position price).1).stopLoss ≠ position.stopLoss →
      position.isTrailingSL = true ∧
      calculatePnL position.entryPrice price position.size position.leverage
        position.side > 5 ∧
      (position.side = Side.LONG →
        ((onPriceUpdate position price).1).stopLoss > position.stopLoss) ∧
      (position.side = Side.SHORT →
        ((onPriceUpdate position price).1).stopLoss < position.stopLoss)) :=
  ⟨fun h => processTicks_stopLoss_le position prices h,
   fun h => processTicks_stopLoss_ge position prices h,
   fun price h => onPriceUpdate_stopLoss_change position price h⟩

/-- Claim C5, witness: the monotonicity part at the concrete trailing
long position and a rising tick sequence. -/
theorem claim5_witness :
    btcPosition.stopLoss ≤ ((processTicks btcPosition [106, 110]).1).stopLoss :=
  (claim5_trailing_stop_never_loosens btcPosition [106, 110]).1 rfl

/-- Claim C6: on a tick where both the stop condition and the take-profit
condition hold, `onPriceUpdate` initiates the close with reason
`STOP_LOSS` (the stop is evaluated first), and no `TAKE_PROFIT` close is
initiated for that tick. -/
theorem claim6_stop_priority (position : Position) (price : ℚ)
    (hstop : shouldTriggerStopLoss price position.stopLoss position.side = true)
    (htp : shouldTriggerTakeProfit price position.takeProfit position.side = true) :
    (onPriceUpdate position price).2 = some CloseReason.STOP_LOSS := by
  unfold onPriceUpdate
  dsimp only
  rw [if_pos hstop]

/-- Claim C6, witness: a gapped tick at 95 on `gappedPosition` satisfies
both trigger conditions and closes with `STOP_LOSS`. -/
theorem claim6_witness :
    (onPriceUpdate gappedPosition 95).2 = some CloseReason.STOP_LOSS :=
  claim6_stop_priority gappedPosition 95
    (by norm_num [shouldTriggerStopLoss, gappedPosition])
    (by norm_num [shouldTriggerTakeProfit, gappedPosition])

/-- Claim C7: the stop and target price formulas for both sides, the
concrete scenario entry 100 / stop 2% / target 4% giving prices 98 and
104, and the trigger conditions at ticks 97.50 and 104.50. -/
theorem claim7_price_math (e p : ℚ) (he : 0 < e) (hp : 0 < p ∧ p < 100) :
    calculateStopLoss e Side.LONG p = e * (1 - p / 100) ∧
    calculateTakeProfit e Side.LONG p = e * (1 + p / 100) ∧
    calculateStopLoss e Side.SHORT p = e * (1 + p / 100) ∧
    calculateTakeProfit e Side.SHORT p = e * (1 - p / 100) ∧
    calculateStopLoss 100 Side.LONG 2 = 98 ∧
    calculateTakeProfit 100 Side.LONG 4 = 104 ∧
    shouldTriggerStopLoss (195/2) 98 Side.LONG = true ∧
    shouldTriggerTakeProfit (209/2) 104 Side.LONG = true := by
  refine ⟨rfl, rfl, rfl, rfl, ?_, ?_, ?_, ?_⟩
  · unfold calculateStopLoss
    norm_num
  · unfold calculateTakeProfit
    norm_num
  · unfold shouldTriggerStopLoss
    norm_num
  · unfold shouldTriggerTakeProfit
    norm_num

/-- Claim C7, witness: the theorem at entry 100 and percentage 2. -/
theorem claim7_witness :
    calculateStopLoss 100 Side.LONG 2 = 100 * (1 - 2 / 100) :=
  (claim7_price_math 100 2 (by norm_num) ⟨by norm_num, by norm_num⟩).1

/-- Claim C8, counterexample: when the stage-1 oracle call throws, the
outer catch of `runCycle` swallows the failure without appending any
conversation-log entry, so no `agent1` entry is visible — contradicting
the claim that a log entry is appended regardless of outcome. -/
theorem claim8_stage1_no_log_on_oracle_failure :
    runCycle (Except.error ("oracle failed")) (Except.ok Recommendation.APPROVE)
        false (Except.ok ()) = [] ∧
    (runCycle (Except.error ("oracle failed")) (Except.ok Recommendation.APPROVE)
        false (Except.ok ())).filter (fun entry => entry.agent == "agent1") = [] :=
  ⟨rfl, rfl⟩

/-- Claim C8, amended: stage 1 appends its conversation-log entry only
when the oracle call succeeds; a stage-1 failure is caught by the outer
catch (so `runCycle` returns normally, never propagating the error) but
leaves no entry, while a stage-3 failure is caught by the inner handler
and does get logged as an `error` entry. -/
theorem claim8_stage1_logging (stage2 : Except String Recommendation)
    (manualApprovalRequired : Bool) (stage3 : Except String Unit) :
    (∀ e : String,
      runCycle (Except.error e) stage2 manualApprovalRequired stage3 = []) ∧
    (runCycle (Except.ok ()) stage2 manualApprovalRequired stage3).head? =
      some ⟨"agent1", StageStatus.success, none⟩ ∧
    (∀ e : String,
      runCycle (Except.ok ()) (Except.ok Recommendation.APPROVE) false
          (Except.error e) =
        [⟨"agent1", StageStatus.success, none⟩,
         ⟨"agent2", StageStatus.success, none⟩,
         ⟨"agent3", StageStatus.error, some e⟩]) := by
  refine ⟨fun e => rfl, ?_, fun e => rfl⟩
  unfold runCycle
  cases stage2 with
  | error e => rfl
  | ok r =>
    dsimp only
    split
    · rfl
    · split
      · rfl
      · cases stage3 <;> rfl

/-- Claim C9, counterexample: after a reconciliation pass finds the
monitored symbol absent from the exchange list, the timer and the
subscription are gone and no close order was issued, but the position is
still in the active-position map and still appears in
`getActivePositions` — contradicting the claim that it is removed. -/
theorem claim9_position_retained_counterexample :
    (checkPositionStatus execStateBTC ("BTCUSDT") []).2 = false ∧
    ((checkPositionStatus execStateBTC ("BTCUSDT") []).1.activeMonitoring = [] ∧
     (checkPositionStatus execStateBTC ("BTCUSDT") []).1.subscriptions = []) ∧
    (getActivePositions (checkPositionStatus execStateBTC ("BTCUSDT") []).1).map
        (fun p => p.symbol) = ["BTCUSDT"] := by
  refine ⟨rfl, ⟨?_, ?_⟩, ?_⟩ <;>
    simp [checkPositionStatus, stopMonitoring, getActivePositions, execStateBTC,
          btcPosition]

/-- Claim C9, amended: when the reconciliation pass finds the monitored
symbol absent from the exchange's position list, the monitor is torn down
(its timer and subscription are removed) and no close order is issued,
but the position stays in the active-position map — `checkPositionStatus`
never touches `activePositions`; only `closePosition` deletes from it. -/
theorem claim9_external_close_teardown (st : ExecutorState) (symbol : String)
    (exchangePositions : List Position)
    (habs : (exchangePositions.find? (fun p => p.symbol == symbol)).isSome = false) :
    checkPositionStatus st symbol exchangePositions =
      (stopMonitoring st symbol, false) ∧
    (checkPositionStatus st symbol exchangePositions).1.activePositions =
      st.activePositions ∧
    symbol ∉ (checkPositionStatus st symbol exchangePositions).1.activeMonitoring ∧
    symbol ∉ (checkPositionStatus st symbol exchangePositions).1.subscriptions := by
  unfold checkPositionStatus
  rw [if_neg (by simp [habs])]
  refine ⟨rfl, rfl, ?_, ?_⟩ <;>
    simp [stopMonitoring, List.mem_filter]

/-- Claim C9, witness: the amended theorem at the concrete executor state
with an empty exchange position list. -/
theorem claim9_witness :
    checkPositionStatus execStateBTC ("BTCUSDT") [] =
      (stopMonitoring execStateBTC ("BTCUSDT"), false) ∧
    (checkPositionStatus execStateBTC ("BTCUSDT") []).1.activePositions =
      execStateBTC.activePositions ∧
    "BTCUSDT" ∉ (checkPositionStatus execStateBTC ("BTCUSDT") []).1.activeMonitoring ∧
    "BTCUSDT" ∉ (checkPositionStatus execStateBTC ("BTCUSDT") []).1.subscriptions :=
  claim9_external_close_teardown execStateBTC ("BTCUSDT") [] rfl

/-- Claim C10: the computed order quantity is at least the 0.001 minimum
and an integer multiple of the 0.001 step (so it is exact at 3 decimal
places), and when positionSize/entryPrice is below 0.001 the quantity is
bumped to exactly 0.001, making the actual notional strictly exceed the
requested position size. -/
theorem claim10_quantity_min_and_step (strategy : TradingStrategy)
    (he : 0 < strategy.entryPrice) :
    1/1000 ≤ calculateQuantity strategy ∧
    (∃ n : ℤ, calculateQuantity strategy = (n : ℚ) / 1000) ∧
    (strategy.positionSize / strategy.entryPrice < 1/1000 →
      calculateQuantity strategy = 1/1000 ∧
      calculateQuantity strategy * strategy.entryPrice > strategy.positionSize) := by
  unfold calculateQuantity
  dsimp only
  rw [jsFloor_eq]
  set raw := strategy.positionSize / strategy.entryPrice with hraw
  set k : ℤ := ⌊raw / (1/1000)⌋ with hk
  by_cases hc : ((k : ℚ) * (1/1000) < 1/1000)
  · rw [if_pos hc]
    have h1 : ((1:ℚ)/1000) * 1000 = ((1 : ℤ) : ℚ) := by norm_num
    rw [h1, jsRound_intCast]
    refine ⟨by norm_num, ⟨1, by norm_num⟩, fun hlt => ⟨by norm_num, ?_⟩⟩
    have hs : strategy.positionSize < (1/1000) * strategy.entryPrice := by
      have := (div_lt_iff he).mp hlt
      linarith
    push_cast
    rw [gt_iff_lt]
    calc strategy.positionSize < (1/1000) * strategy.entryPrice := hs
    _ = ((1:ℤ):ℚ) / 1000 * strategy.entryPrice := by norm_num
  · rw [if_neg hc]
    have hmul : ((k : ℚ) * (1/1000)) * 1000 = ((k : ℤ) : ℚ) := by
      push_cast
      ring
    rw [hmul, jsRound_intCast]
    have hk1 : (1 : ℤ) ≤ k := by
      by_contra hcon
      push_neg at hcon
      have hk0 : k ≤ 0 := by omega
      have hq0 : ((k:ℚ)) ≤ 0 := by exact_mod_cast hk0
      exact hc (by nlinarith)
    have hkq : (1 : ℚ) ≤ (k : ℚ) := by exact_mod_cast hk1
    refine ⟨?_, ⟨k, rfl⟩, fun hlt => ?_⟩
    · rw [div_le_div_iff (by norm_num) (by norm_num)]
      linarith
    · exfalso
      have hml : raw / (1/1000) = raw * 1000 := by ring
      have hlt1 : raw * 1000 < 1 := by
        rw [hraw]
        linarith
      have hklt : k < 1 := by
        rw [hk, hml]
        exact Int.floor_lt.mpr (by exact_mod_cast hlt1)
      omega

/-- Claim C10, witness: the theorem at the concrete dust-sized candidate
(position size 10, entry 50000): the quantity is bumped to 0.001 and the
actual notional 50 exceeds the requested 10. -/
theorem claim10_witness :
    calculateQuantity dustStrategy = 1/1000 ∧
    calculateQuantity dustStrategy * dustStrategy.entryPrice >
      dustStrategy.positionSize := by
  have h := claim10_quantity_min_and_step dustStrategy
    (by norm_num [dustStrategy])
  exact h.2.2 (by norm_num [dustStrategy])

end Aster
